import Mathlib

/-!
Verification of the credential-vault, login-guard, retrieval-failover and
batch-validation core of `web_outlook_app.py`, via a shallow embedding.

Python strings are modelled as `List Char` (`PyStr`); Python `time.time()`
values as `Int`; the Fernet cipher as an abstract pair of functions
`enc : PyStr → PyStr` (encryption of the payload behind the `enc:` tag) and
`dec : PyStr → Option PyStr` (`none` models a raised decryption exception);
network calls as oracles giving each call's outcome for the one request
under consideration.  Fallible Python code (code that raises) is modelled
with `Except`/`Option` results, and functions that mutate global state
(`login_attempts`) are modelled by explicit state passing.
-/

/-- A Python `str`, as its sequence of characters. -/
abbrev PyStr := List Char

/-- Python `s.startswith(p)` over the character-list model. -/
def startswith : PyStr → PyStr → Bool
  | [], _ => true
  | _ :: _, [] => false
  | c :: p, d :: s => (c == d) && startswith p s

/-- Python `needle in hay` (contiguous substring test). -/
def containsSeq : PyStr → PyStr → Bool
  | n, [] => startswith n []
  | n, h :: t => startswith n (h :: t) || containsSeq n t

/-- The `'enc:'` ciphertext tag of `encrypt_data`/`decrypt_data`. -/
def encTag : PyStr := "enc:".data

/-- The `RuntimeError` message raised by `decrypt_data` on a failed
decryption (`"Failed to decrypt data: ..."`, modelled without the
exception-specific suffix). -/
def decryptFailMsg : PyStr := "Failed to decrypt data".data

/-- `encrypt_data` (web_outlook_app.py:249-263): empty input is returned
unchanged, an already-tagged input is returned unchanged, otherwise the
cipher output is prefixed with the `enc:` tag. -/
def encrypt_data (enc : PyStr → PyStr) (data : PyStr) : PyStr :=
  if data = [] then data
  else if startswith encTag data then data
  else encTag ++ enc data

/-- `decrypt_data` (web_outlook_app.py:266-291): empty and untagged inputs
are returned unchanged (legacy back-compat); a tagged input has the tag
stripped and the remainder decrypted, a cipher failure raising
`RuntimeError` (modelled as `Except.error`). -/
def decrypt_data (dec : PyStr → Option PyStr) (encrypted_data : PyStr) :
    Except PyStr PyStr :=
  if encrypted_data = [] then .ok encrypted_data
  else if ¬ startswith encTag encrypted_data then .ok encrypted_data
  else
    match dec (encrypted_data.drop 4) with
    | some p => .ok p
    | none => .error decryptFailMsg

/-- A row of the `accounts` table, restricted to the fields
`get_account_by_email` touches. -/
structure AccountRow where
  email : PyStr
  password : PyStr
  client_id : PyStr
  refresh_token : PyStr
deriving DecidableEq

/-- The per-field `try: field = decrypt_data(field) except Exception: pass`
pattern of `get_account_by_email`: a truthy field is decrypted, and on a
decryption exception the stored value is silently kept. -/
def tryDecryptField (dec : PyStr → Option PyStr) (v : PyStr) : PyStr :=
  if v = [] then v
  else
    match decrypt_data dec v with
    | .ok p => p
    | .error _ => v

/-- `get_account_by_email` (web_outlook_app.py:908-927): the row fetched for
the address (modelled as the `Option AccountRow` lookup outcome), with its
`password` and `refresh_token` fields passed through `tryDecryptField`. -/
def get_account_by_email (dec : PyStr → Option PyStr) :
    Option AccountRow → Option AccountRow
  | none => none
  | some a =>
      some { a with
        password := tryDecryptField dec a.password
        refresh_token := tryDecryptField dec a.refresh_token }

-- Basic lemmas about the tag.

theorem startswith_append (p s : PyStr) : startswith p (p ++ s) = true := by
  induction p with
  | nil => rfl
  | cons c p ih => simp [startswith, ih]

theorem encTag_append_ne_nil (t : PyStr) : encTag ++ t ≠ [] := by
  simp [encTag]

theorem drop_encTag_append (t : PyStr) : (encTag ++ t).drop 4 = t := rfl

/-- Claim C10: `encrypt_data` and `decrypt_data` both map the empty string
to itself unchanged — an empty secret is never tagged, encrypted, or
rejected by either operation. -/
theorem c10_empty_secret_identity (enc : PyStr → PyStr)
    (dec : PyStr → Option PyStr) :
    encrypt_data enc [] = [] ∧ decrypt_data dec [] = .ok [] := by
  constructor <;> rfl

/-- Claim C3: with a cipher whose decryption inverts encryption, for every
plaintext secret `s` (an untagged value, per the data model's split of
stored strings into untagged plaintext and tagged ciphertext):
`decrypt_data (encrypt_data s) = s`; `encrypt_data` is idempotent (on every
input); and `decrypt_data` is the identity on every untagged input. -/
theorem c3_cipher_algebra (enc : PyStr → PyStr) (dec : PyStr → Option PyStr)
    (s : PyStr) (hround : ∀ x, dec (enc x) = some x)
    (hplain : startswith encTag s = false) :
    decrypt_data dec (encrypt_data enc s) = .ok s
      ∧ (∀ u, encrypt_data enc (encrypt_data enc u) = encrypt_data enc u)
      ∧ (∀ t, startswith encTag t = false → decrypt_data dec t = .ok t) := by
  refine ⟨?_, ?_, ?_⟩
  · by_cases hs : s = []
    · subst hs; rfl
    · rw [encrypt_data, if_neg hs, if_neg (by simp [hplain])]
      rw [decrypt_data, if_neg (encTag_append_ne_nil _)]
      rw [if_neg (by simp [startswith_append])]
      rw [drop_encTag_append, hround]
  · intro u
    by_cases hu : u = []
    · subst hu; rfl
    · by_cases htag : startswith encTag u = true
      · have h1 : encrypt_data enc u = u := by
          rw [encrypt_data, if_neg hu, if_pos htag]
        rw [h1, h1]
      · have h1 : encrypt_data enc u = encTag ++ enc u := by
          rw [encrypt_data, if_neg hu, if_neg (by simp_all)]
        rw [h1, encrypt_data, if_neg (encTag_append_ne_nil _),
          if_pos (startswith_append _ _)]
  · intro t ht
    by_cases htn : t = []
    · subst htn; rfl
    · rw [decrypt_data, if_neg htn, if_pos (by simp [ht])]

/-- A concrete invertible-cipher instance used to witness `c3_cipher_algebra`. -/
def encSample : PyStr → PyStr := fun x => 'k' :: x

/-- Decryption inverse of `encSample`; anything not produced by `encSample`
fails (models a failed Fernet authentication). -/
def decSample : PyStr → Option PyStr := fun y =>
  if y.head? = some 'k' then some y.tail else none

theorem c3_cipher_algebra_witness :
    decrypt_data decSample (encrypt_data encSample ("secret0".data)) =
      .ok ("secret0".data) :=
  (c3_cipher_algebra encSample decSample ("secret0".data)
    (fun x => by simp [encSample, decSample]) (by decide)).1

/-- A cipher whose decryption always fails to authenticate (e.g. the
derivation key changed: every `Fernet.decrypt` call raises). -/
def decAlwaysFail : PyStr → Option PyStr := fun _ => none

/-- A stored account row whose secret fields hold `enc:`-tagged ciphertext
that no longer authenticates. -/
def staleRow : AccountRow :=
  ⟨"user@example.com".data, "enc:pw".data, "cid".data, "enc:rt".data⟩

/-- Claim C2 (failing input): `decrypt_data` itself raises a decryption
error on `staleRow`'s tagged secrets, yet `get_account_by_email` catches
that error (`except Exception: pass`) and returns the row with the stored
undecrypted `enc:`-tagged values in place of the plaintext — the error is
silently swallowed, contradicting the claim. -/
theorem c2_lookup_swallows_decryption_error :
    decrypt_data decAlwaysFail staleRow.password = .error decryptFailMsg
      ∧ decrypt_data decAlwaysFail staleRow.refresh_token
          = .error decryptFailMsg
      ∧ get_account_by_email decAlwaysFail (some staleRow) = some staleRow
      ∧ startswith encTag staleRow.password = true := by
  exact ⟨rfl, rfl, by decide, by decide⟩

/-- `MAX_LOGIN_ATTEMPTS` (web_outlook_app.py:128). -/
def MAX_LOGIN_ATTEMPTS : Nat := 5

/-- `LOCKOUT_DURATION` in seconds (web_outlook_app.py:129). -/
def LOCKOUT_DURATION : Int := 300

/-- `ATTEMPT_WINDOW` in seconds (web_outlook_app.py:130). -/
def ATTEMPT_WINDOW : Int := 600

/-- One entry of the `login_attempts` dict:
`{'count': int, 'last_attempt': timestamp, 'locked_until': timestamp}`,
where the `locked_until` key may be absent. -/
structure AttemptRec where
  count : Nat
  last_attempt : Int
  locked_until : Option Int
deriving DecidableEq

/-- The condition
`'locked_until' in attempt_data and current_time < attempt_data['locked_until']`. -/
def lockedActive (a : AttemptRec) (now : Int) : Bool :=
  match a.locked_until with
  | some lu => now < lu
  | none => false

/-- Result of `check_rate_limit`: the (possibly mutated) entry for the
source, plus the returned `(allowed, remaining-seconds)` pair. -/
structure RateCheck where
  state : Option AttemptRec
  allowed : Bool
  remaining : Option Int
deriving DecidableEq

/-- `check_rate_limit` (web_outlook_app.py:133-163), with the global
`login_attempts[ip]` entry passed (and returned) explicitly. -/
def check_rate_limit (st : Option AttemptRec) (now : Int) : RateCheck :=
  match st with
  | none => ⟨none, true, none⟩
  | some a =>
    if lockedActive a now then
      ⟨some a, false, some (a.locked_until.getD 0 - now)⟩
    else if ATTEMPT_WINDOW < now - a.last_attempt then
      ⟨some ⟨0, now, none⟩, true, none⟩
    else if MAX_LOGIN_ATTEMPTS ≤ a.count then
      ⟨some { a with locked_until := some (now + LOCKOUT_DURATION) },
        false, some LOCKOUT_DURATION⟩
    else ⟨some a, true, none⟩

/-- `record_login_failure` (web_outlook_app.py:166-180). -/
def record_login_failure (st : Option AttemptRec) (now : Int) : AttemptRec :=
  match st with
  | none => ⟨1, now, none⟩
  | some a =>
    if now - a.last_attempt ≤ ATTEMPT_WINDOW then
      ⟨a.count + 1, now, a.locked_until⟩
    else ⟨1, now, a.locked_until⟩

/-- `reset_login_attempts` (web_outlook_app.py:183-186): the entry for the
source is deleted. -/
def reset_login_attempts (_ : Option AttemptRec) : Option AttemptRec := none

/-- Outcome of one POST to `/login` for the source. -/
inductive LoginOutcome where
  | rateLimited (remaining : Option Int)
  | success
  | wrongPassword
deriving DecidableEq

/-- The `login` route's use of the guard (web_outlook_app.py:1580-1605):
check the rate limit first; if not allowed report the remaining seconds,
otherwise reset the entry on a correct password and record a failure on a
wrong one. -/
def loginStep (st : Option AttemptRec) (now : Int) (passwordOk : Bool) :
    Option AttemptRec × LoginOutcome :=
  let c := check_rate_limit st now
  if c.allowed then
    if passwordOk then (reset_login_attempts c.state, .success)
    else (some (record_login_failure c.state now), .wrongPassword)
  else (c.state, .rateLimited c.remaining)

/-- Claim C4 (counterexample): after five failures at time 0 the check at
time 1 locks the source until time 301; at time 302 the 300-second lockout
has already elapsed (301 < 302), yet `check_rate_limit` still reports
not-allowed (and re-locks until 602), because the failure count is still
within the 600-second window — refuting "returns allowed again after ...
the expiry of the ... lockout". -/
theorem c4_relock_after_expiry_counterexample :
    record_login_failure
        (some (record_login_failure
          (some (record_login_failure
            (some (record_login_failure
              (some (record_login_failure none 0)) 0)) 0)) 0)) 0
      = ⟨5, 0, none⟩
    ∧ check_rate_limit (some ⟨5, 0, none⟩) 1
        = ⟨some ⟨5, 0, some 301⟩, false, some 300⟩
    ∧ (301 : Int) < 302
    ∧ check_rate_limit (some ⟨5, 0, some 301⟩) 302
        = ⟨some ⟨5, 0, some 602⟩, false, some 300⟩ := by
  refine ⟨by decide, by decide, by decide, by decide⟩

/-- Claim C4 (amended): `check_rate_limit` reports not-allowed exactly when
the source's entry carries a still-unexpired `locked_until` timestamp, or
its failure count is at least 5 with the last failure within the
600-second window (in which case the check (re-)locks for a fresh 300
seconds); it reports allowed again after a recorded success (which deletes
the entry) or once the 600-second window has elapsed since the last
failure with no unexpired lockout — mere expiry of the lockout inside the
window does not restore access. -/
theorem c4_check_allowed_characterisation (st : Option AttemptRec) (now : Int) :
    ((check_rate_limit st now).allowed = false
      ↔ ∃ a, st = some a ∧ (lockedActive a now = true
          ∨ (now - a.last_attempt ≤ ATTEMPT_WINDOW
              ∧ MAX_LOGIN_ATTEMPTS ≤ a.count)))
    ∧ (check_rate_limit (reset_login_attempts st) now).allowed = true
    ∧ (∀ a, st = some a → lockedActive a now = false →
        ATTEMPT_WINDOW < now - a.last_attempt →
        (check_rate_limit st now).allowed = true) := by
  refine ⟨?_, rfl, ?_⟩
  · constructor
    · intro h
      match st with
      | none => simp [check_rate_limit] at h
      | some a =>
        refine ⟨a, rfl, ?_⟩
        by_cases hl : lockedActive a now
        · exact Or.inl hl
        · rw [check_rate_limit] at h
          simp only [hl, Bool.false_eq_true, if_false] at h
          by_cases hw : ATTEMPT_WINDOW < now - a.last_attempt
          · simp [hw] at h
          · by_cases hc : MAX_LOGIN_ATTEMPTS ≤ a.count
            · exact Or.inr ⟨le_of_not_lt hw, hc⟩
            · simp [hw, hc] at h
    · rintro ⟨a, rfl, h | ⟨hw, hc⟩⟩
      · simp [check_rate_limit, h]
      · rw [check_rate_limit]
        by_cases hl : lockedActive a now
        · simp [hl]
        · simp [hl, not_lt.mpr hw, hc]
  · rintro a rfl hl hw
    simp [check_rate_limit, hl, hw]

theorem c4_check_allowed_characterisation_witness :
    (check_rate_limit (some ⟨5, 0, (none : Option Int)⟩) 1).allowed = false :=
  (c4_check_allowed_characterisation (some ⟨5, 0, none⟩) 1).1.mpr
    ⟨⟨5, 0, none⟩, rfl, Or.inr ⟨by decide, by decide⟩⟩

/-- Claim C5: while a source is Locked and the lockout has not expired,
both a bare rate-limit check and a whole login attempt (in particular a
failing one) return the remaining lockout seconds and leave the entry —
in particular its failure count — unchanged. -/
theorem c5_locked_reports_remaining_no_increment (a : AttemptRec)
    (lu now : Int) (passwordOk : Bool) (hl : a.locked_until = some lu)
    (hnow : now < lu) :
    check_rate_limit (some a) now = ⟨some a, false, some (lu - now)⟩
      ∧ loginStep (some a) now passwordOk
          = (some a, .rateLimited (some (lu - now))) := by
  have hla : lockedActive a now = true := by simp [lockedActive, hl, hnow]
  have h1 : check_rate_limit (some a) now = ⟨some a, false, some (lu - now)⟩ := by
    simp [check_rate_limit, hla, hl]
  exact ⟨h1, by simp [loginStep, h1]⟩

theorem c5_locked_reports_remaining_no_increment_witness :
    check_rate_limit (some ⟨5, 0, some 301⟩) 100
        = ⟨some ⟨5, 0, some 301⟩, false, some 201⟩
      ∧ loginStep (some ⟨5, 0, some 301⟩) 100 false
          = (some ⟨5, 0, some 301⟩, .rateLimited (some 201)) :=
  c5_locked_reports_remaining_no_increment ⟨5, 0, some 301⟩ 301 100 false
    rfl (by decide)

/-- Opaque error payload (a `build_error_payload` dict), carried by value so
aggregation can be checked to preserve identity and order. -/
abbrev ErrInfo := PyStr

/-- An opaque mail item of a returned page. -/
abbrev Email := PyStr

instance {ε α : Type} [DecidableEq ε] [DecidableEq α] :
    DecidableEq (Except ε α) := fun x y =>
  match x, y with
  | .ok a, .ok b =>
      if h : a = b then isTrue (by rw [h]) else isFalse (by simp [h])
  | .error a, .error b =>
      if h : a = b then isTrue (by rw [h]) else isFalse (by simp [h])
  | .ok _, .error _ => isFalse (by simp)
  | .error _, .ok _ => isFalse (by simp)

/-- One backend attempt of `api_get_emails`, as the outcome pair of its two
stages: the access-token acquisition this attempt performs for itself
(`get_access_token_graph_result` / `get_access_token_imap_result`), and —
reached only on token success — the mail fetch itself. -/
structure BackendAttempt where
  token : Except ErrInfo PyStr
  fetch : Except ErrInfo (List Email)
deriving DecidableEq

/-- Shared shape of `get_emails_graph` (web_outlook_app.py:1199-1256) and
`get_emails_imap_with_server` (web_outlook_app.py:1355-1489): acquire this
backend's own token, return its error on failure, otherwise return the
fetch outcome. -/
def runAttempt (b : BackendAttempt) : Except ErrInfo (List Email) :=
  match b.token with
  | .error e => .error e
  | .ok _ => b.fetch

/-- The JSON body `api_get_emails` replies with: a served page tagged with
the serving backend's `method` and a `has_more` flag, or the aggregated
failure with its `details` dict (association list, in insertion order). -/
inductive EmailsResponse where
  | page (emails : List Email) (method : PyStr) (has_more : Bool)
  | failure (error : PyStr) (details : List (PyStr × ErrInfo))
deriving DecidableEq

/-- The aggregate failure message
`'无法获取邮件，所有方式均失败'` of `api_get_emails`. -/
def allFailedMsg : PyStr := "无法获取邮件，所有方式均失败".data

/-- `api_get_emails` (web_outlook_app.py:2888-2979), for an account that was
found: try the Graph REST backend, then IMAP on `outlook.live.com` (new),
then IMAP on `outlook.office365.com` (old); return the first success tagged
with its method (`has_more` is the full-page heuristic for Graph and the
constant `False` for both IMAP backends), else the failure whose `details`
dict holds the three collected errors keyed `graph`, `imap_new`,
`imap_old`. -/
def api_get_emails (top : Nat) (graph imapNew imapOld : BackendAttempt) :
    EmailsResponse :=
  match runAttempt graph with
  | .ok emails => .page emails ("Graph API".data) (decide (top ≤ emails.length))
  | .error e1 =>
    match runAttempt imapNew with
    | .ok emails => .page emails ("IMAP (New)".data) false
    | .error e2 =>
      match runAttempt imapOld with
      | .ok emails => .page emails ("IMAP (Old)".data) false
      | .error e3 =>
        .failure allFailedMsg
          [("graph".data, e1), ("imap_new".data, e2), ("imap_old".data, e3)]

/-- The `has_more` flag of a served page, `none` on the failure reply. -/
def hasMoreOf : EmailsResponse → Option Bool
  | .page _ _ hm => some hm
  | .failure _ _ => none

/-- Claim C1: `api_get_emails` tries Graph, then IMAP (new host), then IMAP
(old host), in that fixed order; each attempt acquires its own token —
a token failure fails only that attempt (final conjunct), so the next
backend is still tried; the first successful backend's page is returned
tagged with that backend's method string; and when all three fail the reply
carries exactly the three sub-errors, keyed per backend in attempt order,
the earlier errors preserved intact. -/
theorem c1_failover_order_and_aggregation (top : Nat)
    (g n o : BackendAttempt) :
    (∀ p, runAttempt g = .ok p →
      api_get_emails top g n o
        = .page p ("Graph API".data) (decide (top ≤ p.length)))
    ∧ (∀ e1 p, runAttempt g = .error e1 → runAttempt n = .ok p →
        api_get_emails top g n o = .page p ("IMAP (New)".data) false)
    ∧ (∀ e1 e2 p, runAttempt g = .error e1 → runAttempt n = .error e2 →
        runAttempt o = .ok p →
        api_get_emails top g n o = .page p ("IMAP (Old)".data) false)
    ∧ (∀ e1 e2 e3, runAttempt g = .error e1 → runAttempt n = .error e2 →
        runAttempt o = .error e3 →
        api_get_emails top g n o
          = .failure allFailedMsg
              [("graph".data, e1), ("imap_new".data, e2), ("imap_old".data, e3)])
    ∧ (∀ e fetch, runAttempt ⟨.error e, fetch⟩ = .error e) := by
  refine ⟨?_, ?_, ?_, ?_, fun e fetch => rfl⟩
  · intro p hg; rw [api_get_emails, hg]
  · intro e1 p hg hn; rw [api_get_emails, hg, hn]
  · intro e1 e2 p hg hn ho; rw [api_get_emails, hg, hn, ho]
  · intro e1 e2 e3 hg hn ho; rw [api_get_emails, hg, hn, ho]

/-- A Graph attempt whose token acquisition fails (the fetch stage would
succeed, but is never reached). -/
def graphTokenFailAttempt : BackendAttempt :=
  ⟨.error ("graph token rejected".data), .ok []⟩

/-- An IMAP(new) attempt that succeeds with a one-message page. -/
def imapNewOkAttempt : BackendAttempt :=
  ⟨.ok ("tok".data), .ok ["m1".data]⟩

/-- An attempt that fails at the fetch stage. -/
def fetchFailAttempt : BackendAttempt :=
  ⟨.ok ("tok".data), .error ("fetch failed".data)⟩

theorem c1_failover_order_and_aggregation_witness :
    api_get_emails 20 graphTokenFailAttempt imapNewOkAttempt fetchFailAttempt
      = .page ["m1".data] ("IMAP (New)".data) false :=
  (c1_failover_order_and_aggregation 20 graphTokenFailAttempt
      imapNewOkAttempt fetchFailAttempt).2.1
    ("graph token rejected".data) ["m1".data] rfl rfl

/-- An IMAP(new) attempt that succeeds with a full-sized two-message page. -/
def imapNewFullPageAttempt : BackendAttempt :=
  ⟨.ok ("tok".data), .ok ["m1".data, "m2".data]⟩

/-- Claim C9 (counterexample): with requested page size 2, a full-sized
2-message page served by the IMAP (new) backend is returned with
`has_more = false` — refuting "`hasMore` is true iff the returned page is
full-sized, regardless of which backend served the page". -/
theorem c9_imap_full_page_has_more_false_counterexample :
    api_get_emails 2 graphTokenFailAttempt imapNewFullPageAttempt
        fetchFailAttempt
      = .page ["m1".data, "m2".data] ("IMAP (New)".data) false
    ∧ 2 ≤ (["m1".data, "m2".data] : List Email).length := by
  exact ⟨rfl, by decide⟩

/-- Claim C9 (amended): the full-page heuristic `has_more = (page length ≥
requested size)` applies only when the Graph backend serves the page;
a page served by either IMAP backend always carries `has_more = false`. -/
theorem c9_has_more_heuristic_graph_only (top : Nat)
    (g n o : BackendAttempt) :
    (∀ p, runAttempt g = .ok p →
      hasMoreOf (api_get_emails top g n o) = some (decide (top ≤ p.length)))
    ∧ (∀ e1 p, runAttempt g = .error e1 → runAttempt n = .ok p →
        hasMoreOf (api_get_emails top g n o) = some false)
    ∧ (∀ e1 e2 p, runAttempt g = .error e1 → runAttempt n = .error e2 →
        runAttempt o = .ok p →
        hasMoreOf (api_get_emails top g n o) = some false) := by
  refine ⟨?_, ?_, ?_⟩
  · intro p hg; rw [api_get_emails, hg]; rfl
  · intro e1 p hg hn; rw [api_get_emails, hg, hn]; rfl
  · intro e1 e2 p hg hn ho; rw [api_get_emails, hg, hn, ho]; rfl

theorem c9_has_more_heuristic_graph_only_witness :
    hasMoreOf (api_get_emails 2 graphTokenFailAttempt imapNewFullPageAttempt
        fetchFailAttempt) = some false :=
  (c9_has_more_heuristic_graph_only 2 graphTokenFailAttempt
      imapNewFullPageAttempt fetchFailAttempt).2.1
    ("graph token rejected".data) ["m1".data, "m2".data] rfl rfl

/-- `BATCH_SIZE` of `delete_emails_graph` (web_outlook_app.py:2812). -/
def BATCH_SIZE : Nat := 20

/-- The groups of message ids `delete_emails_graph` sends, one group per
`POST /$batch` call: the loop `for i in range(0, len(message_ids),
BATCH_SIZE): batch = message_ids[i:i+BATCH_SIZE]`, written with an explicit
iteration-count fuel (one unit per loop pass; `fuel = ids.length` always
suffices, so the fuel-exhausted branch is unreachable from
`graphDeleteBatches`). -/
def graphDeleteBatchesAux : Nat → List PyStr → List (List PyStr)
  | _, [] => []
  | 0, _ :: _ => []
  | fuel + 1, a :: rest =>
      (a :: rest).take BATCH_SIZE
        :: graphDeleteBatchesAux fuel ((a :: rest).drop BATCH_SIZE)

/-- The per-call sub-request groups of `delete_emails_graph`
(web_outlook_app.py:2796-2859). -/
def graphDeleteBatches (message_ids : List PyStr) : List (List PyStr) :=
  graphDeleteBatchesAux message_ids.length message_ids

/-- Result dict of `delete_emails_imap`. -/
structure ImapDeleteResult where
  success : Bool
  error : PyStr
deriving DecidableEq

/-- The `'IMAP 删除暂不支持 (ID 格式不兼容)'` message of `delete_emails_imap`. -/
def imapUnsupportedMsg : PyStr := "IMAP 删除暂不支持 (ID 格式不兼容)".data

/-- The `'获取 Access Token 失败'` message of `delete_emails_imap`. -/
def imapTokenFailMsg : PyStr := "获取 Access Token 失败".data

/-- `delete_emails_imap` (web_outlook_app.py:2861-2886), with the token
acquisition and the connect/authenticate/select block as oracles: no token
fails immediately; a raised connection exception is returned as its
message; and a successful connection still returns the fixed
"unsupported" failure — no identifier mapping or deletion is ever
attempted. -/
def delete_emails_imap (token : Option PyStr) (conn : Except PyStr Unit) :
    ImapDeleteResult :=
  match token with
  | none => ⟨false, imapTokenFailMsg⟩
  | some _ =>
    match conn with
    | .ok _ => ⟨false, imapUnsupportedMsg⟩
    | .error e => ⟨false, e⟩

theorem graphDeleteBatchesAux_join (fuel : Nat) :
    ∀ l : List PyStr, l.length ≤ fuel →
      (graphDeleteBatchesAux fuel l).flatten = l := by
  induction fuel with
  | zero =>
    intro l hl
    match l with
    | [] => rfl
    | _ :: _ => simp at hl
  | succ f ih =>
    intro l hl
    match l with
    | [] => rfl
    | a :: rest =>
      rw [graphDeleteBatchesAux, List.flatten]
      rw [ih ((a :: rest).drop BATCH_SIZE) ?_, List.take_append_drop]
      have : (a :: rest).length ≤ f + 1 := hl
      simp only [List.length_drop, BATCH_SIZE] at *
      omega

theorem graphDeleteBatchesAux_mem_le (fuel : Nat) :
    ∀ (l : List PyStr) (b : List PyStr),
      b ∈ graphDeleteBatchesAux fuel l → b.length ≤ BATCH_SIZE := by
  induction fuel with
  | zero =>
    intro l b hb
    match l with
    | [] => simp [graphDeleteBatchesAux] at hb
    | _ :: _ => simp [graphDeleteBatchesAux] at hb
  | succ f ih =>
    intro l b hb
    match l with
    | [] => simp [graphDeleteBatchesAux] at hb
    | a :: rest =>
      rw [graphDeleteBatchesAux] at hb
      rcases List.mem_cons.mp hb with h | h
      · subst h
        exact List.length_take_le BATCH_SIZE (a :: rest)
      · exact ih _ b h

/-- Claim C8: `delete_emails_graph` issues its `$batch` calls in groups of
at most `BATCH_SIZE = 20` sub-requests whose concatenation, in order, is
exactly the requested id list; `delete_emails_imap` never reports success,
and whenever its connection stage succeeds it returns the fixed
"unsupported" error without attempting any identifier mapping. -/
theorem c8_delete_rest_only_imap_unsupported :
    (∀ (l b : List PyStr), b ∈ graphDeleteBatches l → b.length ≤ BATCH_SIZE)
    ∧ (∀ l : List PyStr, (graphDeleteBatches l).flatten = l)
    ∧ (∀ token conn, (delete_emails_imap token conn).success = false)
    ∧ (∀ t, delete_emails_imap (some t) (.ok ())
        = ⟨false, imapUnsupportedMsg⟩) := by
  refine ⟨fun l b hb => graphDeleteBatchesAux_mem_le _ _ b hb,
    fun l => graphDeleteBatchesAux_join _ l le_rfl, ?_, fun t => rfl⟩
  intro token conn
  match token with
  | none => rfl
  | some _ => match conn with
    | .ok _ => rfl
    | .error _ => rfl

theorem c8_delete_rest_only_imap_unsupported_witness :
    (["i1".data, "i2".data] : List PyStr).length ≤ BATCH_SIZE :=
  c8_delete_rest_only_imap_unsupported.1 ["i1".data, "i2".data]
    ["i1".data, "i2".data] (by decide)

/-- One server-sent event of the `/api/accounts/refresh-all` stream
(web_outlook_app.py:2323-2433). -/
inductive SSEEvent where
  | start (total : Nat) (delaySeconds : Nat)
  | progress (current total : Nat) (email : PyStr)
      (successCount failedCount : Nat)
  | delay (seconds : Nat)
  | complete (total successCount failedCount : Nat)
      (failedList : List (Nat × PyStr × PyStr))
deriving DecidableEq

/-- A row inserted into `account_refresh_logs`. -/
structure RefreshLogRow where
  account_id : Nat
  account_email : PyStr
  refresh_type : PyStr
  status : PyStr
  error_message : Option PyStr
deriving DecidableEq

/-- One active account as the batch loop sees it: its row fields plus the
outcome `test_refresh_token` would report for it (`tokenOk`, and the raw
provider-reported `error_description` text `tokenErr` when it fails). -/
structure BatchAccount where
  id : Nat
  email : PyStr
  refresh_token : PyStr
  tokenOk : Bool
  tokenErr : PyStr
deriving DecidableEq

/-- Accumulated effects of the stream generator: emitted events, rows
inserted into `account_refresh_logs`, ids whose `last_refresh_at` was
updated, and the running counters. -/
structure BatchState where
  events : List SSEEvent
  logs : List RefreshLogRow
  refreshedIds : List Nat
  successCount : Nat
  failedCount : Nat
  failedList : List (Nat × PyStr × PyStr)
deriving DecidableEq

/-- `refresh_token = decrypt_data(v) if v else v` of the batch loop. -/
def storedTokenDecrypt (dec : PyStr → Option PyStr) (v : PyStr) :
    Except PyStr PyStr :=
  if v = [] then .ok v else decrypt_data dec v

/-- The `'解密 token 失败: '` prefix of the batch loop's
decryption-failure message. -/
def decryptFailTag : PyStr := "解密 token 失败: ".data

/-- The `for index, account in enumerate(accounts, 1)` body of the
`/api/accounts/refresh-all` generator (web_outlook_app.py:2359-2425): a
decryption failure records a failed log row and `continue`s (no progress
event, no delay); otherwise a progress event is emitted, the token tested,
a log row inserted, `last_refresh_at` updated on success, the counters
advanced, and — when this is not the last account and the delay is
positive — a delay event emitted. -/
def refreshLoop (dec : PyStr → Option PyStr) (delaySeconds total : Nat) :
    List BatchAccount → Nat → BatchState → BatchState
  | [], _, st => st
  | a :: rest, index, st =>
    match storedTokenDecrypt dec a.refresh_token with
    | .error e =>
      let msg := decryptFailTag ++ e
      refreshLoop dec delaySeconds total rest (index + 1)
        { st with
          failedCount := st.failedCount + 1
          failedList := st.failedList ++ [(a.id, a.email, msg)]
          logs := st.logs
            ++ ([⟨a.id, a.email, "manual".data, "failed".data, some msg⟩]
              : List RefreshLogRow) }
    | .ok _ =>
      let st1 := { st with
        events := st.events
          ++ ([.progress index total a.email st.successCount st.failedCount]
            : List SSEEvent) }
      let st2 := { st1 with
        logs := st1.logs
          ++ ([⟨a.id, a.email, "manual".data,
              (if a.tokenOk then "success".data else "failed".data),
              if a.tokenOk then none else some a.tokenErr⟩]
            : List RefreshLogRow)
        refreshedIds :=
          if a.tokenOk then st1.refreshedIds ++ [a.id] else st1.refreshedIds }
      let st3 :=
        if a.tokenOk then { st2 with successCount := st2.successCount + 1 }
        else { st2 with
          failedCount := st2.failedCount + 1
          failedList := st2.failedList ++ [(a.id, a.email, a.tokenErr)] }
      let st4 :=
        if index < total ∧ 0 < delaySeconds then
          { st3 with events := st3.events ++ ([.delay delaySeconds] : List SSEEvent) }
        else st3
      refreshLoop dec delaySeconds total rest (index + 1) st4

/-- `api_refresh_all_accounts` (web_outlook_app.py:2323-2433): the whole
stream for a given active-account list and configured delay — a start
event, the per-account loop, and the final complete event. -/
def api_refresh_all_accounts (dec : PyStr → Option PyStr)
    (delaySeconds : Nat) (accounts : List BatchAccount) : BatchState :=
  let total := accounts.length
  let st := refreshLoop dec delaySeconds total accounts 1
    ⟨[.start total delaySeconds], [], [], 0, 0, []⟩
  { st with
    events := st.events
      ++ ([.complete total st.successCount st.failedCount st.failedList]
        : List SSEEvent) }

/-- Recognisers for the four event kinds. -/
def isStartEv : SSEEvent → Bool
  | .start _ _ => true
  | _ => false

def isProgressEv : SSEEvent → Bool
  | .progress _ _ _ _ _ => true
  | _ => false

def isDelayEv : SSEEvent → Bool
  | .delay _ => true
  | _ => false

def isCompleteEv : SSEEvent → Bool
  | .complete _ _ _ _ => true
  | _ => false

/-- Number of events of a kind in a stream. -/
def countEvents (p : SSEEvent → Bool) (evs : List SSEEvent) : Nat :=
  (evs.filter p).length

/-- `true` iff some delay event occurs after the last progress event
(scanning the reversed stream up to the first progress event). -/
def delayAfterLastItem (evs : List SSEEvent) : Bool :=
  (evs.reverse.takeWhile (fun e => ! isProgressEv e)).any isDelayEv

/-- Claim C6 (amended): for a batch over 3 accounts each of whose stored
refresh credentials decrypts successfully (accounts failing decryption are
skipped by `continue` before both the progress event and the delay block),
the stream holds exactly 1 start, 3 progress and 1 complete event; with
`delaySeconds = 0` it holds no delay event, with `delaySeconds > 0` exactly
2; and no delay event ever follows the last item's progress event. -/
theorem c6_three_account_event_counts (dec : PyStr → Option PyStr)
    (d : Nat) (a1 a2 a3 : BatchAccount) (t1 t2 t3 : PyStr)
    (h1 : storedTokenDecrypt dec a1.refresh_token = .ok t1)
    (h2 : storedTokenDecrypt dec a2.refresh_token = .ok t2)
    (h3 : storedTokenDecrypt dec a3.refresh_token = .ok t3) :
    countEvents isStartEv
        (api_refresh_all_accounts dec d [a1, a2, a3]).events = 1
    ∧ countEvents isProgressEv
        (api_refresh_all_accounts dec d [a1, a2, a3]).events = 3
    ∧ countEvents isCompleteEv
        (api_refresh_all_accounts dec d [a1, a2, a3]).events = 1
    ∧ (d = 0 → countEvents isDelayEv
        (api_refresh_all_accounts dec d [a1, a2, a3]).events = 0)
    ∧ (0 < d → countEvents isDelayEv
        (api_refresh_all_accounts dec d [a1, a2, a3]).events = 2)
    ∧ delayAfterLastItem
        (api_refresh_all_accounts dec d [a1, a2, a3]).events = false := by
  rcases Nat.eq_zero_or_pos d with hd | hd
  · subst hd
    cases hk1 : a1.tokenOk <;> cases hk2 : a2.tokenOk <;>
      cases hk3 : a3.tokenOk <;>
      simp [api_refresh_all_accounts, refreshLoop, h1, h2, h3, hk1, hk2, hk3,
        countEvents, isStartEv, isProgressEv, isCompleteEv, isDelayEv,
        delayAfterLastItem, List.filter, List.takeWhile]
  · have hd0 : ¬ d = 0 := Nat.pos_iff_ne_zero.mp hd
    cases hk1 : a1.tokenOk <;> cases hk2 : a2.tokenOk <;>
      cases hk3 : a3.tokenOk <;>
      simp [api_refresh_all_accounts, refreshLoop, h1, h2, h3, hk1, hk2, hk3,
        hd, hd0, countEvents, isStartEv, isProgressEv, isCompleteEv,
        isDelayEv, delayAfterLastItem, List.filter, List.takeWhile]

/-- An active account whose stored credential is tagged ciphertext that no
longer decrypts. -/
def staleTokenAcct : BatchAccount :=
  ⟨1, "a1@example.com".data, "enc:stale".data, true, []⟩

/-- Active accounts with empty stored credentials (decryption is skipped)
whose token test succeeds. -/
def plainAcct2 : BatchAccount := ⟨2, "a2@example.com".data, [], true, []⟩

def plainAcct3 : BatchAccount := ⟨3, "a3@example.com".data, [], true, []⟩

/-- An account whose token test fails. -/
def failTokenAcct : BatchAccount :=
  ⟨4, "a4@example.com".data, [], false, "boom".data⟩

/-- Claim C6 (counterexample): a batch over 3 accounts with
`delaySeconds = 5 > 0` whose first account fails credential decryption
emits only 2 progress events and only 1 delay event (the `continue` skips
both the progress event and the inter-item delay), refuting the claimed
exact counts of 3 progress events and 2 delay events for every 3-account
run. -/
theorem c6_decrypt_failure_skips_events_counterexample :
    ([staleTokenAcct, plainAcct2, plainAcct3] : List BatchAccount).length = 3
    ∧ 0 < 5
    ∧ countEvents isProgressEv
        (api_refresh_all_accounts decAlwaysFail 5
          [staleTokenAcct, plainAcct2, plainAcct3]).events = 2
    ∧ countEvents isDelayEv
        (api_refresh_all_accounts decAlwaysFail 5
          [staleTokenAcct, plainAcct2, plainAcct3]).events = 1 := by
  exact ⟨by decide, by decide, by decide, by decide⟩

theorem c6_three_account_event_counts_witness :
    countEvents isProgressEv
        (api_refresh_all_accounts decAlwaysFail 5
          [plainAcct2, plainAcct3, failTokenAcct]).events = 3
    ∧ countEvents isDelayEv
        (api_refresh_all_accounts decAlwaysFail 5
          [plainAcct2, plainAcct3, failTokenAcct]).events = 2 :=
  ⟨(c6_three_account_event_counts decAlwaysFail 5 plainAcct2 plainAcct3
      failTokenAcct [] [] [] rfl rfl rfl).2.1,
    (c6_three_account_event_counts decAlwaysFail 5 plainAcct2 plainAcct3
      failTokenAcct [] [] [] rfl rfl rfl).2.2.2.2.1 (by decide)⟩

/-- A raw provider `error_description` that embeds a secret-shaped
key-value pair. -/
def rawProviderErr : PyStr :=
  "AADSTS70000: \"refresh_token\":\"abc123\" is expired".data

/-- An active account whose refresh credential the provider rejects with
`rawProviderErr`. -/
def invalidCredAcct : BatchAccount :=
  ⟨7, "victim@example.com".data, [], false, rawProviderErr⟩

/-- Claim C7 (failing input): processing an account with an invalid refresh
credential does persist a `failed` log row and leaves `last_refresh_at`
untouched, but the stored `error_message` is the raw provider text — the
secret-shaped substring `"refresh_token":"abc123"` is persisted verbatim,
with no redaction applied on the persistence path (`sanitize_error_details`
is only applied to transmitted error payloads by `build_error_payload`). -/
theorem c7_unredacted_error_persisted :
    (api_refresh_all_accounts decAlwaysFail 0 [invalidCredAcct]).logs
      = [⟨7, "victim@example.com".data, "manual".data, "failed".data,
          some rawProviderErr⟩]
    ∧ containsSeq ("\"refresh_token\":\"abc123\"".data) rawProviderErr = true
    ∧ (api_refresh_all_accounts decAlwaysFail 0 [invalidCredAcct]).refreshedIds
        = [] := by
  exact ⟨by decide, by decide, by decide⟩
